import Mathlib

/-!
# Verification of the blogapi credential and token-lifecycle subsystem

Shallow embedding of the Go sources under `internal/service/user_service.go`,
`internal/middleware/middleware.go` and `internal/repository/user_repository.go`
of the `artnikel/blogapi` repository, together with the behaviour of the external
libraries they call (`golang-jwt/jwt/v5`, `golang.org/x/crypto/bcrypt`,
`crypto/sha256`, `google/uuid`).

Modelling decisions:

* Unix time is modelled as `Int` seconds.  The jwt/v5 validator compares
  real (sub-second) `time.Now()` against the integer `exp` via `now.Before(exp)`;
  for integer `exp` and real now in `[nowSec, nowSec+1)` this is exactly
  `nowSec < exp`, so the integer model is exact at seconds resolution.
* Hash functions are modelled symbolically (Dolev-Yao style): `Bytes.sha256`
  and `Bytes.bcrypt` are free constructors, so two digests are equal exactly
  when their inputs (and, for bcrypt, salt and cost) are equal, and a digest is
  never syntactically equal to its preimage.  bcrypt's salt is an explicit
  randomness parameter threaded by the caller.
* A JWT produced by `token.SignedString` with `HS256` is deterministic in its
  claims and key (JSON map keys are serialised in sorted order, HMAC is
  deterministic), so a signed token is modelled as the record of its claims,
  signing key, and algorithm family; signature verification is key equality.
* Go strings carrying JSON claim values are split into canonical-UUID-shaped
  strings (`JSONValue.uuidStr`, which `uuid.Parse` accepts, recovering the
  UUID) and all other strings (`JSONValue.str`, which `uuid.Parse` rejects).
* A failed single-value Go type assertion such as `claims["id"].(string)`
  panics; panics are made explicit as the `GoResult.panicked` outcome.
* `bcrypt.GenerateFromPassword` with the constant cost 14 cannot fail on the
  inputs this code feeds it, so `HashPassword` is total.
-/

/-- Model of `config.Config`: only the signing secret is consumed by the core. -/
structure Config where
  BlogTokenSignature : String
deriving DecidableEq, Repr

/-- JSON claim values as decoded by `encoding/json` into `jwt.MapClaims`:
strings are split into canonical UUID renderings and other strings; numbers
(always integral here) and booleans.  `uuid.UUID` values marshal to their
canonical string, hence `uuidStr`. -/
inductive JSONValue where
  | str (s : String)
  | uuidStr (u : Nat)
  | num (n : Int)
  | jbool (b : Bool)
deriving DecidableEq, Repr

/-- Model of a structurally well-formed JWS produced by `jwt.NewWithClaims` +
`SignedString`: the algorithm family advertised in the header, the claims
object, and the key the MAC was computed with. -/
structure SignedToken where
  algHMAC : Bool
  claims : List (String × JSONValue)
  key : String
deriving DecidableEq, Repr

/-- A Go string presented as a token: either a well-formed signed JWT or any
other string (which `jwt.Parse` rejects as malformed). -/
inductive TokStr where
  | signed (t : SignedToken)
  | plain (s : String)
deriving DecidableEq, Repr

/-- Symbolic model of the byte strings flowing through the subsystem:
raw bytes (e.g. a password), a SHA-256 digest of a token string, or a bcrypt
digest (cost, salt, hashed input).  Constructors are free, modelling
collision-freedom of the hash functions. -/
inductive Bytes where
  | raw (bs : List Nat)
  | sha256OfToken (t : TokStr)
  | bcrypt (cost : Nat) (salt : Nat) (input : Bytes)
deriving DecidableEq, Repr

/-- Model of a Go `(value, error)` return, with panics explicit. -/
inductive GoResult (α : Type) where
  | ret (val : α) (err : Option String)
  | panicked (msg : String)
deriving DecidableEq, Repr

/-- Model of `service.TokenPair`. -/
structure TokenPair where
  AccessToken : TokStr
  RefreshToken : TokStr
deriving DecidableEq, Repr

/-- The zero value `TokenPair{}` (both fields the empty string). -/
def emptyPair : TokenPair := ⟨.plain "", .plain ""⟩

/-- A row of the `users` table (`model.User` as persisted):
`refreshtoken` is NULL until the first Login stores a digest. -/
structure StoredUser where
  id : Nat
  username : String
  password : Bytes
  admin : Bool
  refreshToken : Option Bytes
deriving DecidableEq, Repr

/-- The repository state: the `users` table. -/
abbrev DB := List StoredUser

/-! ## External library models -/

/-- Model of `bcrypt.GenerateFromPassword(password, cost)`: a fresh salted digest.
Total: the constant cost 14 is in range and every input fed by this code is
within bcrypt's length limit. -/
def bcryptGenerateFromPassword (cost : Nat) (salt : Nat) (password : Bytes) : Bytes :=
  Bytes.bcrypt cost salt password

/-- Model of `bcrypt.CompareHashAndPassword(hash, password)`: `nil` exactly when `hash`
is a well-formed bcrypt digest of `password`; the sentinel mismatch error when
it is a well-formed digest of something else; a parse error when `hash` is not
a bcrypt digest at all. -/
def bcryptCompareHashAndPassword (hash password : Bytes) : Option String :=
  match hash with
  | .bcrypt _ _ input =>
      if input = password then none
      else some "crypto/bcrypt: hashedPassword is not the hash of the given password"
  | _ => some "crypto/bcrypt: hashedSecret too short to be a bcrypted password"

/-- Model of `sha256.Sum256` applied to a token string. -/
def sha256Sum (t : TokStr) : Bytes := Bytes.sha256OfToken t

/-- Lookup in a `jwt.MapClaims` object. -/
def lookupClaim (claims : List (String × JSONValue)) (k : String) : Option JSONValue :=
  (claims.find? (fun p => p.1 = k)).map (fun p => p.2)

/-- Model of jwt/v5 `MapClaims.GetExpirationTime`: absent `exp` is `nil` (no error);
a numeric `exp` is returned; any other type is `ErrInvalidType`. -/
def getExpirationTime (claims : List (String × JSONValue)) : Except String (Option Int) :=
  match lookupClaim claims "exp" with
  | none => .ok none
  | some (.num n) => .ok (some n)
  | some _ => .error "exp is invalid"

/-- Model of `middleware.ValidateToken(tokenString, secretKey)` at integer second `now`:
`jwt.Parse` with a keyfunc that rejects non-HMAC algorithms, then signature
verification, then default claims validation (token valid only while
`now < exp`; an absent `exp` is not required). -/
def ValidateToken (tok : TokStr) (secretKey : String) (now : Int) :
    Except String SignedToken :=
  match tok with
  | .plain _ => .error "token contains an invalid number of segments"
  | .signed t =>
    if !t.algHMAC then .error "unexpected signing method"
    else if t.key ≠ secretKey then .error "signature is invalid"
    else match getExpirationTime t.claims with
      | .error e => .error e
      | .ok none => .ok t
      | .ok (some e) => if now < e then .ok t else .error "token is expired"

/-! ## UserService -/

/-- Constant `accessTokenExpiration = 15 * time.Minute`, in seconds. -/
def accessTokenExpiration : Int := 900

/-- Constant `refreshTokenExpiration = 72 * time.Hour`, in seconds. -/
def refreshTokenExpiration : Int := 259200

/-- Constant `bcryptCost = 14`. -/
def bcryptCost : Nat := 14

/-- Model of `UserService.GenerateJWTToken(expiration, id, isAdmin)` evaluated at
integer second `now`: claims `{exp: now+expiration, id, isAdmin}` signed with
`HS256` under the configured secret. -/
def GenerateJWTToken (cfg : Config) (now : Int) (expiration : Int) (id : Nat)
    (isAdmin : Bool) : TokStr :=
  .signed
    { algHMAC := true
      claims := [("exp", .num (now + expiration)), ("id", .uuidStr id),
                 ("isAdmin", .jbool isAdmin)]
      key := cfg.BlogTokenSignature }

/-- Model of `UserService.GenerateTokenPair(id, isAdmin)` at second `now`. -/
def GenerateTokenPair (cfg : Config) (now : Int) (id : Nat) (isAdmin : Bool) :
    TokenPair :=
  { AccessToken := GenerateJWTToken cfg now accessTokenExpiration id isAdmin
    RefreshToken := GenerateJWTToken cfg now refreshTokenExpiration id isAdmin }

/-- Model of `UserService.HashPassword(password)` with explicit salt randomness. -/
def HashPassword (salt : Nat) (password : Bytes) : Bytes :=
  bcryptGenerateFromPassword bcryptCost salt password

/-- Model of `UserService.CheckPasswordHash(hash, password)`: wraps any
`CompareHashAndPassword` error (including the mismatch sentinel) and returns
`(false, err)`; returns `(true, nil)` only on a match. -/
def CheckPasswordHash (hash password : Bytes) : Bool × Option String :=
  match bcryptCompareHashAndPassword hash password with
  | some e => (false, some ("bcrypt.CompareHashAndPassword - " ++ e))
  | none => (true, none)

/-- Model of `UserService.TokensIDCompare(tokenPair)` at second `now`.  Go single-value
type assertions on the claims map (`claims["id"].(string)`,
`claims["isAdmin"].(bool)`, `claims["exp"].(float64)`) panic when the claim is
absent or of another type; `uuid.Parse` fails on non-UUID strings. -/
def TokensIDCompare (cfg : Config) (now : Int) (tokenPair : TokenPair) :
    GoResult (Nat × Bool) :=
  match ValidateToken tokenPair.AccessToken cfg.BlogTokenSignature now with
  | .error e => .ret (0, false) (some ("middleware.validateToken - " ++ e))
  | .ok accessTok =>
    -- body of `if claims, ok := accessToken.Claims.(jwt.MapClaims); ok && accessToken.Valid`
    -- (always entered after a successful Parse): id assertion + uuid.Parse,
    -- then isAdmin assertion.
    match lookupClaim accessTok.claims "id" with
    | some (.str _) => .ret (0, false) (some "uuid.Parse - invalid UUID")
    | some (.uuidStr accessID) =>
      match lookupClaim accessTok.claims "isAdmin" with
      | some (.jbool isAdmin) =>
        match ValidateToken tokenPair.RefreshToken cfg.BlogTokenSignature now with
        | .error e => .ret (0, false) (some ("middleware.validateToken - " ++ e))
        | .ok refreshTok =>
          -- refresh branch: exp assertion, id assertion + uuid.Parse, manual
          -- expiry re-check, then the cross-check of the two subject ids.
          match lookupClaim refreshTok.claims "exp" with
          | some (.num exp) =>
            match lookupClaim refreshTok.claims "id" with
            | some (.str _) => .ret (0, false) (some "uuid.Parse - invalid UUID")
            | some (.uuidStr refreshID) =>
              if exp < now then .ret (0, false) (some "validateToken - %!w(<nil>)")
              else if accessID ≠ refreshID then
                .ret (0, false)
                  (some "user ID in acess token doesn't equal user ID in refresh token")
              else .ret (accessID, isAdmin) none
            | _ => .panicked "interface conversion: claims id is not string"
          | _ => .panicked "interface conversion: claims exp is not float64"
      | _ => .panicked "interface conversion: claims isAdmin is not bool"
    | _ => .panicked "interface conversion: claims id is not string"

/-! ## Repository (`internal/repository/user_repository.go`) -/

/-- Model of `PgRepository.SignUp`: counts rows with the username; `ErrExist` when one
exists, otherwise inserts the row (the `refreshtoken` column is not in the
INSERT list, so it starts NULL). -/
def repoSignUp (db : DB) (user : StoredUser) : Except String DB :=
  if db.any (fun u => u.username == user.username) then .error "user already exists"
  else .ok (db ++ [{ user with refreshToken := none }])

/-- Model of `PgRepository.GetDataByUsername`: `(id, password, admin)` of the row with
the username, or the pgx no-rows error. -/
def GetDataByUsername (db : DB) (username : String) :
    Except String (Nat × Bytes × Bool) :=
  match db.find? (fun u => u.username == username) with
  | some u => .ok (u.id, u.password, u.admin)
  | none => .error "no rows in result set"

/-- Model of `PgRepository.GetRefreshTokenByID`: the `refreshtoken` column of the row
with the id; scanning a NULL column into a string fails, as does no row. -/
def GetRefreshTokenByID (db : DB) (id : Nat) : Except String Bytes :=
  match db.find? (fun u => u.id == id) with
  | some u =>
    match u.refreshToken with
    | some h => .ok h
    | none => .error "cannot scan NULL into string"
  | none => .error "no rows in result set"

/-- Model of `PgRepository.AddRefreshToken`: `UPDATE users SET refreshtoken = $1 WHERE
id = $2`; updates every matching row, succeeds even when none matches. -/
def AddRefreshToken (db : DB) (id : Nat) (tok : Bytes) : DB :=
  db.map (fun u => if u.id == id then { u with refreshToken := some tok } else u)

/-- Modelled from the spec: `PgRepository.DeleteUserByID` is code of this
repository that is not under `src/` (only its interface declaration, its
service-layer caller and its tests `Test_DeleteUserByID*` are).  Per the spec
(§4.4 DeleteIdentity and §8) and the tests: deletion of a privileged (admin)
identity fails with `Forbidden` regardless of the requester, an absent id
fails with `NotFound`, and otherwise the row is removed. -/
def repoDeleteUserByID (db : DB) (id : Nat) : Except String DB :=
  match db.find? (fun u => u.id == id) with
  | none => .error "user not found"
  | some u =>
    if u.admin then .error "Forbidden: cannot delete admin user"
    else .ok (db.filter (fun v => !(v.id == id)))

/-! ## CredentialService operations (`UserService`) -/

/-- Model of `UserService.SignUp(user)`: hashes the raw password in place, then inserts
through the repository.  Returns the new state and the Go error value. -/
def SignUpSvc (db : DB) (salt : Nat) (id : Nat) (username : String)
    (password : Bytes) (admin : Bool) : DB × Option String :=
  let hashed := HashPassword salt password
  match repoSignUp db { id := id, username := username, password := hashed,
                        admin := admin, refreshToken := none } with
  | .error e => (db, some ("rpsUser.SignUp - " ++ e))
  | .ok db2 => (db2, none)

/-- Model of `UserService.Login(user)` at second `now` with bcrypt salt `salt`;
`addFails` injects a repository failure of `AddRefreshToken` (storage
unavailable), which in the code happens after the token pair was generated. -/
def Login (cfg : Config) (db : DB) (now : Int) (salt : Nat) (addFails : Bool)
    (username : String) (password : Bytes) : GoResult (TokenPair × DB) :=
  match GetDataByUsername db username with
  | .error e => .ret (emptyPair, db) (some ("rpsUser.GetDataByUsername - " ++ e))
  | .ok (id, hash, admin) =>
    let verres := CheckPasswordHash hash password
    if verres.2.isSome || !verres.1 then
      .ret (emptyPair, db) (some ("CheckPasswordHash - " ++ verres.2.getD ""))
    else
      let tokenPair := GenerateTokenPair cfg now id admin
      let sum := sha256Sum tokenPair.RefreshToken
      let hashedRefreshToken := HashPassword salt sum
      if addFails then
        .ret (emptyPair, db) (some "rpsUser.AddRefreshToken - storage unavailable")
      else
        .ret (tokenPair, AddRefreshToken db id hashedRefreshToken) none

/-- Model of `UserService.Refresh(tokenPair)` at second `now` with bcrypt salt `salt`;
`addFails` injects a repository failure of `AddRefreshToken` after the new
pair was generated.  A panic in `TokensIDCompare` propagates. -/
def Refresh (cfg : Config) (db : DB) (now : Int) (salt : Nat) (addFails : Bool)
    (tokenPair : TokenPair) : GoResult (TokenPair × DB) :=
  match TokensIDCompare cfg now tokenPair with
  | .panicked m => .panicked m
  | .ret _ (some e) => .ret (emptyPair, db) (some ("TokensIDCompare - " ++ e))
  | .ret (id, isAdmin) none =>
    match GetRefreshTokenByID db id with
    | .error e => .ret (emptyPair, db) (some ("rpsUser.GetRefreshTokenByID - " ++ e))
    | .ok hash =>
      let sum := sha256Sum tokenPair.RefreshToken
      let verres := CheckPasswordHash hash sum
      if verres.2.isSome || !verres.1 then
        .ret (emptyPair, db) (some "CheckPasswordHash error: refreshToken invalid")
      else
        let newPair := GenerateTokenPair cfg now id isAdmin
        let newSum := sha256Sum newPair.RefreshToken
        let hashedRefreshToken := HashPassword salt newSum
        if addFails then
          .ret (emptyPair, db) (some "rpsUser.AddRefreshToken - storage unavailable")
        else
          .ret (newPair, AddRefreshToken db id hashedRefreshToken) none

/-- Model of `UserService.DeleteUserByID(id)`: delegates to the repository and wraps
the error. -/
def DeleteUserByIDSvc (db : DB) (id : Nat) : DB × Option String :=
  match repoDeleteUserByID db id with
  | .error e => (db, some ("rpsUser.DeleteUserByID - " ++ e))
  | .ok db2 => (db2, none)

/-! ## Derived notions and concrete fixtures -/

/-- Invariant of the persisted state: every row's password field is a bcrypt
digest (the service never writes a plaintext secret into that column). -/
def hashedDB (db : DB) : Prop :=
  ∀ u ∈ db, ∃ c s p, u.password = Bytes.bcrypt c s p

/-- Test configuration: signing secret "secret" (as in the repository's own
unit tests). -/
def cfgT : Config := ⟨"secret"⟩

/-- The token pair issued for identity 1 (non-admin) at second 0. -/
def pairT : TokenPair := GenerateTokenPair cfgT 0 1 false

/-- A users-table row for identity 1 whose stored refresh digest is the bcrypt
hash (salt 5) of the SHA-256 of `pairT`'s refresh token, as Login stores it. -/
def rowT : StoredUser :=
  { id := 1, username := "alice", password := .bcrypt 14 0 (.raw [10]), admin := false,
    refreshToken := some (.bcrypt 14 5 (sha256Sum pairT.RefreshToken)) }

/-- One-row users table holding `rowT`. -/
def dbT : DB := [rowT]

/-- A correctly signed token whose claims object lacks the `id` and `isAdmin`
fields (only `exp` is present). -/
def tokNoIdT : TokStr := .signed { algHMAC := true, claims := [("exp", .num 1000)], key := "secret" }

/-- A token pair presenting `tokNoIdT` as both tokens. -/
def pairNoIdT : TokenPair := ⟨tokNoIdT, tokNoIdT⟩

/-- An access token for identity 1 carrying isAdmin = true, issued at second 0. -/
def accessAdminTok : TokStr := GenerateJWTToken cfgT 0 accessTokenExpiration 1 true

/-- A refresh token for identity 1 carrying isAdmin = false, issued at second 0. -/
def refreshNonAdminTok : TokStr := GenerateJWTToken cfgT 0 refreshTokenExpiration 1 false

/-- A synthetic pair whose access and refresh tokens disagree on the privilege
flag but agree on the subject id. -/
def mixedPairT : TokenPair := ⟨accessAdminTok, refreshNonAdminTok⟩

/-- One-row users table whose stored refresh digest matches `refreshNonAdminTok`. -/
def dbMixT : DB :=
  [{ id := 1, username := "alice", password := .bcrypt 14 0 (.raw [10]), admin := false,
     refreshToken := some (.bcrypt 14 5 (sha256Sum refreshNonAdminTok)) }]

/-- One-row users table for Login scenarios: alice's password digest is the
bcrypt hash (salt 0) of the raw password bytes [1, 2]. -/
def dbLoginT : DB :=
  [{ id := 1, username := "alice", password := .bcrypt 14 0 (.raw [1, 2]), admin := false,
     refreshToken := none }]

/-- One-row users table holding a privileged (admin) identity with id 2. -/
def dbAdminT : DB :=
  [{ id := 2, username := "boss", password := .bcrypt 14 0 (.raw [3]), admin := true,
     refreshToken := none }]

/-! ## Helper lemmas -/

theorem bcrypt_ne_input (c s : Nat) (p : Bytes) : Bytes.bcrypt c s p ≠ p := by
  intro h
  have hs := congrArg sizeOf h
  simp only [Bytes.bcrypt.sizeOf_spec] at hs
  omega

theorem validateToken_generated (cfg : Config) (now ttl : Int) (id : Nat) (adm : Bool)
    (now2 : Int) (h : now2 < now + ttl) :
    ValidateToken (GenerateJWTToken cfg now ttl id adm) cfg.BlogTokenSignature now2 =
      .ok ⟨true, [("exp", .num (now + ttl)), ("id", .uuidStr id), ("isAdmin", .jbool adm)],
           cfg.BlogTokenSignature⟩ := by
  simp [ValidateToken, GenerateJWTToken, getExpirationTime, lookupClaim, List.find?, h]

theorem validateToken_generated_expired (cfg : Config) (now ttl : Int) (id : Nat) (adm : Bool)
    (now2 : Int) (h : now + ttl ≤ now2) :
    ValidateToken (GenerateJWTToken cfg now ttl id adm) cfg.BlogTokenSignature now2 =
      .error "token is expired" := by
  simp [ValidateToken, GenerateJWTToken, getExpirationTime, lookupClaim, List.find?]
  omega

theorem tokensIDCompare_generated (cfg : Config) (now ta tr : Int) (id : Nat)
    (admA admR : Bool) (hA : now < ta + accessTokenExpiration)
    (hR : now < tr + refreshTokenExpiration) :
    TokensIDCompare cfg now
      ⟨GenerateJWTToken cfg ta accessTokenExpiration id admA,
       GenerateJWTToken cfg tr refreshTokenExpiration id admR⟩ =
      .ret (id, admA) none := by
  simp [TokensIDCompare, validateToken_generated _ _ _ _ _ _ hA,
        validateToken_generated _ _ _ _ _ _ hR, lookupClaim, List.find?]
  omega

theorem find?_AddRefreshToken (db : DB) (i : Nat) (tok : Bytes) (u : StoredUser)
    (h : db.find? (fun v => v.id == i) = some u) :
    (AddRefreshToken db i tok).find? (fun v => v.id == i) =
      some { u with refreshToken := some tok } := by
  induction db with
  | nil => simp [List.find?] at h
  | cons hd tl ih =>
    by_cases hid : hd.id = i
    · rw [List.find?_cons_of_pos _ (by simp [hid])] at h
      injection h with h
      subst h
      simp only [AddRefreshToken, List.map_cons]
      rw [List.find?_cons_of_pos _ (by simp [hid])]
      simp [hid]
    · rw [List.find?_cons_of_neg _ (by simp [hid])] at h
      have hrec := ih h
      simp only [AddRefreshToken, List.map_cons] at hrec ⊢
      rw [if_neg (by simp [hid])]
      rw [List.find?_cons_of_neg _ (by simp [hid])]
      exact hrec

theorem refresh_eval_ok (cfg : Config) (db : DB) (now ta tr : Int) (salt : Nat)
    (id : Nat) (admA admR : Bool) (u : StoredUser) (c s : Nat)
    (hA : now < ta + accessTokenExpiration) (hR : now < tr + refreshTokenExpiration)
    (hfind : db.find? (fun v => v.id == id) = some u)
    (hstored : u.refreshToken =
      some (.bcrypt c s (sha256Sum (GenerateJWTToken cfg tr refreshTokenExpiration id admR)))) :
    Refresh cfg db now salt false
      ⟨GenerateJWTToken cfg ta accessTokenExpiration id admA,
       GenerateJWTToken cfg tr refreshTokenExpiration id admR⟩ =
      .ret (GenerateTokenPair cfg now id admA,
            AddRefreshToken db id
              (HashPassword salt (sha256Sum (GenerateTokenPair cfg now id admA).RefreshToken)))
        none := by
  simp [Refresh, tokensIDCompare_generated cfg now ta tr id admA admR hA hR,
        GetRefreshTokenByID, hfind, hstored, CheckPasswordHash,
        bcryptCompareHashAndPassword]

theorem refresh_eval_reuse (cfg : Config) (db : DB) (now ta tr : Int) (salt : Nat)
    (id : Nat) (admA admR : Bool) (u : StoredUser) (stored : Bytes)
    (hA : now < ta + accessTokenExpiration) (hR : now < tr + refreshTokenExpiration)
    (hfind : db.find? (fun v => v.id == id) = some u)
    (hstored : u.refreshToken = some stored)
    (hmismatch : ∀ c s, stored ≠
      .bcrypt c s (sha256Sum (GenerateJWTToken cfg tr refreshTokenExpiration id admR))) :
    Refresh cfg db now salt false
      ⟨GenerateJWTToken cfg ta accessTokenExpiration id admA,
       GenerateJWTToken cfg tr refreshTokenExpiration id admR⟩ =
      .ret (emptyPair, db) (some "CheckPasswordHash error: refreshToken invalid") := by
  simp only [Refresh, tokensIDCompare_generated cfg now ta tr id admA admR hA hR,
        GetRefreshTokenByID, hfind, hstored, CheckPasswordHash]
  cases stored with
  | bcrypt c s input =>
    have hne : input ≠ sha256Sum (GenerateJWTToken cfg tr refreshTokenExpiration id admR) := by
      intro he; exact hmismatch c s (by rw [he])
    simp [bcryptCompareHashAndPassword, hne]
  | raw bs => simp [bcryptCompareHashAndPassword]
  | sha256OfToken t => simp [bcryptCompareHashAndPassword]

theorem login_shape (cfg : Config) (db : DB) (now : Int) (salt : Nat) (af : Bool)
    (un : String) (pw : Bytes) :
    (∃ m, Login cfg db now salt af un pw = .ret (emptyPair, db) (some m)) ∨
    (∃ i adm hsh, Login cfg db now salt af un pw =
      .ret (GenerateTokenPair cfg now i adm, AddRefreshToken db i hsh) none) := by
  unfold Login
  split
  · exact Or.inl ⟨_, rfl⟩
  next id hash admin =>
    dsimp only
    split
    · exact Or.inl ⟨_, rfl⟩
    · split
      · exact Or.inl ⟨_, rfl⟩
      · exact Or.inr ⟨_, _, _, rfl⟩

theorem refresh_shape (cfg : Config) (db : DB) (now : Int) (salt : Nat) (af : Bool)
    (pair : TokenPair) :
    (∃ m, Refresh cfg db now salt af pair = .ret (emptyPair, db) (some m)) ∨
    (∃ m, Refresh cfg db now salt af pair = .panicked m) ∨
    (∃ i adm hsh, Refresh cfg db now salt af pair =
      .ret (GenerateTokenPair cfg now i adm, AddRefreshToken db i hsh) none) := by
  unfold Refresh
  split
  · exact Or.inr (Or.inl ⟨_, rfl⟩)
  · exact Or.inl ⟨_, rfl⟩
  next id isAdmin heq =>
    split
    · exact Or.inl ⟨_, rfl⟩
    · dsimp only
      split
      · exact Or.inl ⟨_, rfl⟩
      · split
        · exact Or.inl ⟨_, rfl⟩
        · exact Or.inr (Or.inr ⟨_, _, _, rfl⟩)

theorem hashedDB_AddRefreshToken (db : DB) (i : Nat) (tok : Bytes) (h : hashedDB db) :
    hashedDB (AddRefreshToken db i tok) := by
  intro u hu
  simp only [AddRefreshToken, List.mem_map] at hu
  obtain ⟨v, hv, rfl⟩ := hu
  obtain ⟨c, s, p, hp⟩ := h v hv
  refine ⟨c, s, p, ?_⟩
  split <;> simpa using hp

theorem hashedDB_append_hashed (db : DB) (u : StoredUser) (h : hashedDB db)
    (hu : ∃ c s p, u.password = Bytes.bcrypt c s p) : hashedDB (db ++ [u]) := by
  intro v hv
  rcases List.mem_append.mp hv with hv | hv
  · exact h v hv
  · simp only [List.mem_singleton] at hv
    subst hv
    exact hu

theorem hashedDB_filter (db : DB) (f : StoredUser → Bool) (h : hashedDB db) :
    hashedDB (db.filter f) := fun u hu => h u (List.mem_of_mem_filter hu)

/-- C6: for every claims value, signing secret and ttl > 0, decoding the
encoded token with the same secret before expiry succeeds and yields exactly
the original claims (exp = now + ttl, id, isAdmin). -/
theorem token_roundtrip (cfg : Config) (now ttl : Int) (id : Nat) (adm : Bool)
    (now2 : Int) (_httl : 0 < ttl) (hbefore : now2 < now + ttl) :
    ValidateToken (GenerateJWTToken cfg now ttl id adm) cfg.BlogTokenSignature now2 =
      .ok ⟨true, [("exp", .num (now + ttl)), ("id", .uuidStr id), ("isAdmin", .jbool adm)],
           cfg.BlogTokenSignature⟩ := by
  exact validateToken_generated cfg now ttl id adm now2 hbefore

theorem token_roundtrip_witness :
    (0 : Int) < 100 ∧ (50 : Int) < 0 + 100 ∧
    ValidateToken (GenerateJWTToken cfgT 0 100 1 false) cfgT.BlogTokenSignature 50 =
      .ok ⟨true, [("exp", .num (0 + 100)), ("id", .uuidStr 1), ("isAdmin", .jbool false)],
           cfgT.BlogTokenSignature⟩ :=
  ⟨by decide, by decide, token_roundtrip cfgT 0 100 1 false 50 (by decide) (by decide)⟩

/-- C4 (amended): a generated token validates exactly while `now < exp`
(equivalently it is rejected when `exp ≤ now`, an inclusive rejection
boundary: `exp == now` is already rejected by jwt's `now.Before(exp)` check);
a token encoded with a negative ttl always fails validation from its issuance
second on. -/
theorem token_expiry_boundary (cfg : Config) (now ttl : Int) (id : Nat) (adm : Bool)
    (now2 : Int) :
    ((∃ t, ValidateToken (GenerateJWTToken cfg now ttl id adm) cfg.BlogTokenSignature now2 =
        .ok t) ↔ now2 < now + ttl) ∧
    (ttl < 0 → now ≤ now2 →
      ValidateToken (GenerateJWTToken cfg now ttl id adm) cfg.BlogTokenSignature now2 =
        .error "token is expired") := by
  constructor
  · constructor
    · rintro ⟨t, ht⟩
      by_contra hc
      push_neg at hc
      rw [validateToken_generated_expired cfg now ttl id adm now2 hc] at ht
      exact Except.noConfusion ht
    · intro h
      exact ⟨_, validateToken_generated cfg now ttl id adm now2 h⟩
  · intro h1 h2
    exact validateToken_generated_expired cfg now ttl id adm now2 (by omega)

/-- C4 counterexample: a token whose exp equals the current second is rejected
as expired, although the claim says `exp == now` is the last valid instant. -/
theorem token_expiry_boundary_counterexample :
    ValidateToken (GenerateJWTToken cfgT 0 100 1 false) cfgT.BlogTokenSignature 100 =
      .error "token is expired" ∧ ¬ ((0 : Int) + 100 < 100) :=
  ⟨rfl, by decide⟩

theorem token_expiry_boundary_witness :
    ((∃ t, ValidateToken (GenerateJWTToken cfgT 0 100 1 false) cfgT.BlogTokenSignature 50 =
        .ok t) ↔ (50 : Int) < 0 + 100) ∧
    ValidateToken (GenerateJWTToken cfgT 0 (-1) 1 false) cfgT.BlogTokenSignature 0 =
      .error "token is expired" :=
  ⟨(token_expiry_boundary cfgT 0 100 1 false 50).1,
   (token_expiry_boundary cfgT 0 (-1) 1 false 0).2 (by decide) (by decide)⟩

/-- C8 (amended): CheckPasswordHash returns (true, nil) exactly when the
stored value is a well-formed bcrypt digest of the candidate; any mismatch
against a well-formed digest yields false together with a non-nil wrapped
error (not an error-free false), mirroring bcrypt's mismatch sentinel. -/
theorem checkPasswordHash_spec (hash pw : Bytes) :
    (CheckPasswordHash hash pw = (true, none) ↔ ∃ c s, hash = Bytes.bcrypt c s pw) ∧
    (∀ c s q, q ≠ pw → CheckPasswordHash (Bytes.bcrypt c s q) pw =
      (false,
       some "bcrypt.CompareHashAndPassword - crypto/bcrypt: hashedPassword is not the hash of the given password")) := by
  constructor
  · cases hash with
    | bcrypt c s input =>
      by_cases h : input = pw
      · subst h
        simp [CheckPasswordHash, bcryptCompareHashAndPassword]
      · simp [CheckPasswordHash, bcryptCompareHashAndPassword, h]
    | raw bs => simp [CheckPasswordHash, bcryptCompareHashAndPassword]
    | sha256OfToken t => simp [CheckPasswordHash, bcryptCompareHashAndPassword]
  · intro c s q hq
    simp [CheckPasswordHash, bcryptCompareHashAndPassword, hq]

/-- C8 counterexample: a candidate that does not match a well-formed stored
digest produces false TOGETHER WITH an error, contradicting the claim that no
error is produced on a simple mismatch. -/
theorem checkPasswordHash_mismatch_error_counterexample :
    CheckPasswordHash (Bytes.bcrypt 14 0 (.raw [97])) (.raw [98]) =
      (false,
       some "bcrypt.CompareHashAndPassword - crypto/bcrypt: hashedPassword is not the hash of the given password") := by
  decide

theorem checkPasswordHash_spec_witness :
    CheckPasswordHash (Bytes.bcrypt 14 0 (.raw [1])) (.raw [1]) = (true, none) ∧
    CheckPasswordHash (Bytes.bcrypt 14 0 (.raw [2])) (.raw [1]) =
      (false,
       some "bcrypt.CompareHashAndPassword - crypto/bcrypt: hashedPassword is not the hash of the given password") :=
  ⟨(checkPasswordHash_spec (Bytes.bcrypt 14 0 (.raw [1])) (.raw [1])).1.mpr ⟨14, 0, rfl⟩,
   (checkPasswordHash_spec (Bytes.bcrypt 14 0 (.raw [2])) (.raw [1])).2 14 0 (.raw [2]) (by decide)⟩

/-- C9: deleting an identity stored with admin = true always fails (the
repository refuses with Forbidden regardless of the requester, and the
service propagates the error unchanged). -/
theorem deleteUser_admin_forbidden (db : DB) (id : Nat) (u : StoredUser)
    (hfind : db.find? (fun v => v.id == id) = some u) (hadm : u.admin = true) :
    DeleteUserByIDSvc db id =
      (db, some "rpsUser.DeleteUserByID - Forbidden: cannot delete admin user") := by
  simp [DeleteUserByIDSvc, repoDeleteUserByID, hfind, hadm]

theorem deleteUser_admin_forbidden_witness :
    DeleteUserByIDSvc dbAdminT 2 =
      (dbAdminT, some "rpsUser.DeleteUserByID - Forbidden: cannot delete admin user") :=
  deleteUser_admin_forbidden dbAdminT 2
    { id := 2, username := "boss", password := .bcrypt 14 0 (.raw [3]), admin := true,
      refreshToken := none } (by decide) (by decide)

/-- C2: a correctly signed token whose claims object lacks the `id` (and
`isAdmin`) fields makes TokensIDCompare panic through the blind type
assertion `claims["id"].(string)` instead of returning an error. -/
theorem tokensIDCompare_missing_claims_panics :
    TokensIDCompare cfgT 0 pairNoIdT =
      .panicked "interface conversion: claims id is not string" := by
  decide

/-- C1: the code violates the rotation claim in the same-second case.  With
identity 1's stored digest being the bcrypt hash of pairT's refresh token
(pairT issued at second 0), Refresh(pairT) at second 0 succeeds and — because
GenerateJWTToken is deterministic in (claims, key) and both calls fall in the
same Unix second — reissues a pair byte-identical to pairT and stores a digest
that still matches pairT's refresh token; the immediate second Refresh(pairT)
therefore succeeds again instead of failing with the reuse error. -/
theorem refresh_rotation_same_second_replay :
    Refresh cfgT dbT 0 7 false pairT =
      .ret (pairT, AddRefreshToken dbT 1 (HashPassword 7 (sha256Sum pairT.RefreshToken))) none ∧
    Refresh cfgT (AddRefreshToken dbT 1 (HashPassword 7 (sha256Sum pairT.RefreshToken)))
        0 8 false pairT =
      .ret (pairT,
            AddRefreshToken (AddRefreshToken dbT 1 (HashPassword 7 (sha256Sum pairT.RefreshToken)))
              1 (HashPassword 8 (sha256Sum pairT.RefreshToken))) none :=
  ⟨by decide, by decide⟩

/-- C3 counterexample: a synthetic pair whose access token carries
isAdmin = true and whose refresh token carries isAdmin = false (same subject)
is accepted by Refresh, and the reissued pair embeds true — the access token's
flag — not the refresh token's false, contradicting the claim. -/
theorem refresh_privilege_refresh_claim_counterexample :
    Refresh cfgT dbMixT 0 3 false mixedPairT =
      .ret (GenerateTokenPair cfgT 0 1 true,
            AddRefreshToken dbMixT 1
              (HashPassword 3 (sha256Sum (GenerateTokenPair cfgT 0 1 true).RefreshToken))) none ∧
    GenerateTokenPair cfgT 0 1 true ≠ GenerateTokenPair cfgT 0 1 false :=
  ⟨by decide, by decide⟩

/-- C3 (amended): for every pair of valid tokens accepted by Refresh, the
privilege flag embedded in the reissued token pair is the one carried by the
presented ACCESS token's claims (the refresh token's flag is never read). -/
theorem refresh_privilege_from_access_token (cfg : Config) (db : DB) (now ta tr : Int)
    (salt : Nat) (id : Nat) (admA admR : Bool) (u : StoredUser) (c s : Nat)
    (hA : now < ta + accessTokenExpiration) (hR : now < tr + refreshTokenExpiration)
    (hfind : db.find? (fun v => v.id == id) = some u)
    (hstored : u.refreshToken =
      some (.bcrypt c s (sha256Sum (GenerateJWTToken cfg tr refreshTokenExpiration id admR)))) :
    Refresh cfg db now salt false
      ⟨GenerateJWTToken cfg ta accessTokenExpiration id admA,
       GenerateJWTToken cfg tr refreshTokenExpiration id admR⟩ =
      .ret (GenerateTokenPair cfg now id admA,
            AddRefreshToken db id
              (HashPassword salt (sha256Sum (GenerateTokenPair cfg now id admA).RefreshToken)))
        none :=
  refresh_eval_ok cfg db now ta tr salt id admA admR u c s hA hR hfind hstored

theorem refresh_privilege_from_access_token_witness :
    Refresh cfgT dbMixT 0 3 false
      ⟨GenerateJWTToken cfgT 0 accessTokenExpiration 1 true,
       GenerateJWTToken cfgT 0 refreshTokenExpiration 1 false⟩ =
      .ret (GenerateTokenPair cfgT 0 1 true,
            AddRefreshToken dbMixT 1
              (HashPassword 3 (sha256Sum (GenerateTokenPair cfgT 0 1 true).RefreshToken)))
        none :=
  refresh_privilege_from_access_token cfgT dbMixT 0 0 0 3 1 true false
    { id := 1, username := "alice", password := .bcrypt 14 0 (.raw [10]), admin := false,
      refreshToken := some (.bcrypt 14 5 (sha256Sum refreshNonAdminTok)) } 14 5
    (by decide) (by decide) (by decide) rfl

/-- C5 counterexample: with alice's digest stored, a Login for an unknown
username and a Login for alice with a wrong password both fail with an empty
pair, but the two error values are different strings identifying which check
failed — the two runs are not observationally identical at the service layer. -/
theorem login_failure_distinguishable_counterexample :
    Login cfgT dbLoginT 0 3 false "bob" (.raw [1, 2]) =
      .ret (emptyPair, dbLoginT) (some "rpsUser.GetDataByUsername - no rows in result set") ∧
    Login cfgT dbLoginT 0 3 false "alice" (.raw [9]) =
      .ret (emptyPair, dbLoginT)
        (some "CheckPasswordHash - bcrypt.CompareHashAndPassword - crypto/bcrypt: hashedPassword is not the hash of the given password") ∧
    ("rpsUser.GetDataByUsername - no rows in result set" ≠
     "CheckPasswordHash - bcrypt.CompareHashAndPassword - crypto/bcrypt: hashedPassword is not the hash of the given password") :=
  ⟨by decide, by decide, by decide⟩

/-- C5 (amended): both failure paths of Login return the empty TokenPair with
a non-nil error (the HTTP handler then collapses them into one generic
response), but the service-level error values differ between unknown-username
and wrong-password, so the two failures are distinguishable by the immediate
caller. -/
theorem login_failure_modes (cfg : Config) (db : DB) (now : Int) (salt : Nat) (af : Bool)
    (un : String) (pw : Bytes) (u : StoredUser) (c s : Nat) (stored : Bytes) :
    (db.find? (fun v => v.username == un) = none →
      Login cfg db now salt af un pw =
        .ret (emptyPair, db) (some "rpsUser.GetDataByUsername - no rows in result set")) ∧
    (db.find? (fun v => v.username == un) = some u → u.password = .bcrypt c s stored →
      stored ≠ pw →
      Login cfg db now salt af un pw =
        .ret (emptyPair, db)
          (some "CheckPasswordHash - bcrypt.CompareHashAndPassword - crypto/bcrypt: hashedPassword is not the hash of the given password")) ∧
    ("rpsUser.GetDataByUsername - no rows in result set" ≠
     "CheckPasswordHash - bcrypt.CompareHashAndPassword - crypto/bcrypt: hashedPassword is not the hash of the given password") := by
  refine ⟨?_, ?_, by decide⟩
  · intro h
    simp [Login, GetDataByUsername, h]
  · intro hf hp hne
    simp [Login, GetDataByUsername, hf, CheckPasswordHash, bcryptCompareHashAndPassword, hp, hne]

theorem login_failure_modes_witness :
    Login cfgT dbLoginT 0 3 false "bob" (.raw [1, 2]) =
      .ret (emptyPair, dbLoginT) (some "rpsUser.GetDataByUsername - no rows in result set") ∧
    Login cfgT dbLoginT 0 3 false "alice" (.raw [9]) =
      .ret (emptyPair, dbLoginT)
        (some "CheckPasswordHash - bcrypt.CompareHashAndPassword - crypto/bcrypt: hashedPassword is not the hash of the given password") :=
  ⟨(login_failure_modes cfgT dbLoginT 0 3 false "bob" (.raw [1, 2])
      { id := 1, username := "alice", password := .bcrypt 14 0 (.raw [1, 2]), admin := false,
        refreshToken := none } 14 0 (.raw [1, 2])).1 (by decide),
   (login_failure_modes cfgT dbLoginT 0 3 false "alice" (.raw [9])
      { id := 1, username := "alice", password := .bcrypt 14 0 (.raw [1, 2]), admin := false,
        refreshToken := none } 14 0 (.raw [1, 2])).2.1 (by decide) rfl (by decide)⟩

theorem signUpSvc_eval (db : DB) (salt id : Nat) (un : String) (pw : Bytes) (adm : Bool) :
    SignUpSvc db salt id un pw adm =
      if db.any (fun u => u.username == un) then
        (db, some "rpsUser.SignUp - user already exists")
      else (db ++ [{ id := id, username := un, password := HashPassword salt pw,
                     admin := adm, refreshToken := none }], none) := by
  unfold SignUpSvc repoSignUp
  split <;> simp_all

/-- C7: SignUp persists the bcrypt hash of the raw password and never the
plaintext itself, and every operation of the subsystem (SignUp, Login,
Refresh, DeleteUserByID) preserves the invariant that all persisted password
fields are bcrypt digests. -/
theorem password_hashing_invariant (cfg : Config) (db : DB) (now : Int) (salt : Nat)
    (af : Bool) (id : Nat) (un un2 : String) (pw pw2 : Bytes) (adm : Bool)
    (pair : TokenPair) (did : Nat) :
    ((SignUpSvc db salt id un pw adm).2 = none →
      ∃ u ∈ (SignUpSvc db salt id un pw adm).1,
        u.username = un ∧ u.password = Bytes.bcrypt bcryptCost salt pw ∧ u.password ≠ pw) ∧
    (hashedDB db → hashedDB (SignUpSvc db salt id un pw adm).1) ∧
    (hashedDB db → ∀ p db2 e, Login cfg db now salt af un2 pw2 = .ret (p, db2) e →
      hashedDB db2) ∧
    (hashedDB db → ∀ p db2 e, Refresh cfg db now salt af pair = .ret (p, db2) e →
      hashedDB db2) ∧
    (hashedDB db → hashedDB (DeleteUserByIDSvc db did).1) := by
  refine ⟨?_, ?_, ?_, ?_, ?_⟩
  · intro hok
    rw [signUpSvc_eval] at hok ⊢
    by_cases hex : db.any (fun u => u.username == un)
    · simp [hex] at hok
    · rw [if_neg (by simpa using hex)] at hok ⊢
      refine ⟨{ id := id, username := un, password := HashPassword salt pw,
                admin := adm, refreshToken := none }, by simp, rfl, rfl, ?_⟩
      exact bcrypt_ne_input bcryptCost salt pw
  · intro hd
    rw [signUpSvc_eval]
    by_cases hex : db.any (fun u => u.username == un)
    · simpa [hex] using hd
    · rw [if_neg (by simpa using hex)]
      exact hashedDB_append_hashed db _ hd ⟨bcryptCost, salt, pw, rfl⟩
  · intro hd p db2 e hL
    rcases login_shape cfg db now salt af un2 pw2 with ⟨m, hm⟩ | ⟨i, adm2, hsh, hm⟩
    · rw [hm] at hL
      injection hL with h1 h2
      injection h1 with hp hdb
      subst hdb
      exact hd
    · rw [hm] at hL
      injection hL with h1 h2
      injection h1 with hp hdb
      subst hdb
      exact hashedDB_AddRefreshToken db i hsh hd
  · intro hd p db2 e hR
    rcases refresh_shape cfg db now salt af pair with ⟨m, hm⟩ | ⟨m, hm⟩ | ⟨i, adm2, hsh, hm⟩
    · rw [hm] at hR
      injection hR with h1 h2
      injection h1 with hp hdb
      subst hdb
      exact hd
    · rw [hm] at hR
      exact GoResult.noConfusion hR
    · rw [hm] at hR
      injection hR with h1 h2
      injection h1 with hp hdb
      subst hdb
      exact hashedDB_AddRefreshToken db i hsh hd
  · intro hd
    unfold DeleteUserByIDSvc
    split
    · exact hd
    next db2 heq =>
      have : hashedDB db2 := by
        unfold repoDeleteUserByID at heq
        split at heq
        · exact Except.noConfusion heq
        · split at heq
          · exact Except.noConfusion heq
          · injection heq with heq2
            subst heq2
            exact hashedDB_filter db _ hd
      exact this

theorem password_hashing_invariant_witness :
    (SignUpSvc [] 3 1 "alice" (.raw [1]) false).2 = none ∧
    (∃ u ∈ (SignUpSvc [] 3 1 "alice" (.raw [1]) false).1,
      u.username = "alice" ∧ u.password = Bytes.bcrypt bcryptCost 3 (.raw [1]) ∧
      u.password ≠ .raw [1]) :=
  ⟨by decide,
   (password_hashing_invariant cfgT [] 0 3 false 1 "alice" "x" (.raw [1]) (.raw [])
      false emptyPair 0).1 (by decide)⟩

/-- C10: on every error-returning path of Login and Refresh the returned
TokenPair is the empty pair — no partially issued token is ever handed back
alongside an error, including failures injected after token generation. -/
theorem failure_returns_empty_pair (cfg : Config) (db : DB) (now : Int) (salt : Nat)
    (af : Bool) (un : String) (pw : Bytes) (pair p : TokenPair) (db2 : DB) (m : String) :
    (Login cfg db now salt af un pw = .ret (p, db2) (some m) → p = emptyPair) ∧
    (Refresh cfg db now salt af pair = .ret (p, db2) (some m) → p = emptyPair) := by
  constructor
  · intro h
    rcases login_shape cfg db now salt af un pw with ⟨m2, hm⟩ | ⟨i, adm2, hsh, hm⟩
    · rw [hm] at h
      injection h with h1 h2
      exact (congrArg Prod.fst h1).symm
    · rw [hm] at h
      injection h with h1 h2
      exact Option.noConfusion h2
  · intro h
    rcases refresh_shape cfg db now salt af pair with ⟨m2, hm⟩ | ⟨m2, hm⟩ | ⟨i, adm2, hsh, hm⟩
    · rw [hm] at h
      injection h with h1 h2
      exact (congrArg Prod.fst h1).symm
    · rw [hm] at h
      exact GoResult.noConfusion h
    · rw [hm] at h
      injection h with h1 h2
      exact Option.noConfusion h2

theorem failure_returns_empty_pair_witness :
    Login cfgT [] 0 0 false "x" (.raw []) =
      .ret (emptyPair, ([] : DB)) (some "rpsUser.GetDataByUsername - no rows in result set") ∧
    (Refresh cfgT [] 0 0 false emptyPair =
      .ret (emptyPair, ([] : DB))
        (some "TokensIDCompare - middleware.validateToken - token contains an invalid number of segments")) ∧
    emptyPair = emptyPair :=
  ⟨by decide, by decide,
   (failure_returns_empty_pair cfgT [] 0 0 false "x" (.raw []) emptyPair emptyPair []
      "rpsUser.GetDataByUsername - no rows in result set").1 (by decide)⟩
